import Mathlib

/-!
Verification of the deterministic quantitative scoring engine of the
SDS-CP044-finresearch repository (rajan-hans submission): factor scoring,
fundamental metrics, technical indicators, valuation assessment, and
sector benchmark resolution.

The Python source is shallowly embedded as follows:
* Python floats become `ℚ` (exact rational arithmetic) except for the CAGR
  function, whose fractional power forces `ℝ`.
* `None`-able values become `Option`.
* Python truthiness (`x or y`, `if x:`) is modelled explicitly: `None`,
  `0` and `""` are falsy.
* `round(x, n)` (banker's rounding, ties to even) becomes `pyRound`.
* Functions that can raise become `Except`.
-/

namespace FinResearch

/-- Round-half-to-even on a rational, returning an integer.  Models Python's
built-in `round` to zero decimal places (banker's rounding). -/
def roundHalfEven (x : ℚ) : ℤ :=
  if x - ⌊x⌋ < 1/2 then ⌊x⌋
  else if 1/2 < x - ⌊x⌋ then ⌊x⌋ + 1
  else if ⌊x⌋ % 2 = 0 then ⌊x⌋ else ⌊x⌋ + 1

/-- Models Python's `round(x, n)`: round half to even at `n` decimal places. -/
def pyRound (x : ℚ) (n : ℕ) : ℚ :=
  (roundHalfEven (x * 10 ^ n) : ℚ) / 10 ^ n

/-- Source `factor_scoring_tools._clamp(value, min_val, max_val)`: clamp a
value between bounds, returning the midpoint when the value is `None`. -/
def pyClamp (value : Option ℚ) (lo hi : ℚ) : ℚ :=
  match value with
  | none => (lo + hi) / 2
  | some v => max lo (min hi v)

/-- Python `a or b` on nullable numbers: `a` if it is truthy
(non-`None` and nonzero), else `b`. -/
def pyOr (a b : Option ℚ) : Option ℚ :=
  match a with
  | some x => if x = 0 then b else some x
  | none => b

/-- Python `a or b` on nullable strings: `a` if truthy (non-`None`,
non-empty), else `b`. -/
def pyOrStr (a b : Option String) : Option String :=
  match a with
  | some s => if s = "" then b else some s
  | none => b

/-- Python `a or d` with a numeric default `d` (used as `rev_cagr or 0`). -/
def pyOrVal (a : Option ℚ) (d : ℚ) : ℚ :=
  match a with
  | some x => if x = 0 then d else x
  | none => d

/-! ### Factor scoring (`factor_scoring_tools.py`) -/

/-- The dict handed to `_score_valuation` (built by `compute_factor_scores`
from top-level keys plus an optional nested `valuation` dict).  Fields are
the keys the function reads; `pegRatio` embeds the source key `peg_ratio`. -/
structure ValuationData where
  pe_ttm : Option ℚ
  pe : Option ℚ
  trailing_pe : Option ℚ
  forward_pe : Option ℚ
  pe_forward : Option ℚ
  pegRatio : Option ℚ
deriving DecidableEq

/-- The benchmark dict read by `_score_valuation`. -/
structure ScoreBenchmarks where
  sector_pe_median : Option ℚ
  sector_pe : Option ℚ
  pe_median : Option ℚ
deriving DecidableEq

/-- `pe_ttm = f.get("pe_ttm") or f.get("pe") or f.get("trailing_pe")`. -/
def peTtmOf (f : ValuationData) : Option ℚ :=
  pyOr (pyOr f.pe_ttm f.pe) f.trailing_pe

/-- `forward_pe = f.get("forward_pe") or f.get("pe_forward")`. -/
def forwardPeOf (f : ValuationData) : Option ℚ :=
  pyOr f.forward_pe f.pe_forward

/-- `pe_to_use = forward_pe or pe_ttm`. -/
def peToUse (f : ValuationData) : Option ℚ :=
  pyOr (forwardPeOf f) (peTtmOf f)

/-- The sector P/E read from the benchmarks when present:
`benchmarks.get("sector_pe_median") or benchmarks.get("sector_pe") or
benchmarks.get("pe_median")`; `None` when `benchmarks` is falsy. -/
def sectorPeOf : Option ScoreBenchmarks → Option ℚ
  | none => none
  | some b => pyOr (pyOr b.sector_pe_median b.sector_pe) b.pe_median

/-- The absolute-P/E bucketing step of `_score_valuation`. -/
def peBandScore (pe : ℚ) : ℚ :=
  if pe < 10 then 85
  else if pe < 15 then 75
  else if pe < 20 then 65
  else if pe < 25 then 55
  else if pe < 35 then 40
  else 25

/-- The sector-comparison adjustment of `_score_valuation`. -/
def sectorAdjust (pe : ℚ) (sectorPe : Option ℚ) (score : ℚ) : ℚ :=
  match sectorPe with
  | some sp =>
    if 0 < sp then
      if pe / sp < 0.7 then score + 15
      else if pe / sp < 0.9 then score + 8
      else if 1.3 < pe / sp then score - 15
      else if 1.1 < pe / sp then score - 8
      else score
    else score
  | none => score

/-- The PEG-ratio adjustment of `_score_valuation`. -/
def pegAdjust (pegR : Option ℚ) (score : ℚ) : ℚ :=
  match pegR with
  | some peg =>
    if 0 < peg then
      if peg < 1.0 then score + 10
      else if peg < 1.5 then score + 5
      else if 2.5 < peg then score - 10
      else if 2.0 < peg then score - 5
      else score
    else score
  | none => score

/-- The body of `_score_valuation` once a P/E value has been chosen. -/
def scoreValuationCore (pe : ℚ) (sectorPe pegR : Option ℚ) : ℚ :=
  if pe ≤ 0 then 25
  else pyClamp (some (pegAdjust pegR (sectorAdjust pe sectorPe (peBandScore pe)))) 0 100

/-- Source `_score_valuation`: bucket the chosen P/E, adjust by sector
comparison and PEG ratio, clamp to [0,100]. -/
def scoreValuation (f : ValuationData) (benchmarks : Option ScoreBenchmarks) : ℚ :=
  match peToUse f with
  | none => 50
  | some pe => scoreValuationCore pe (sectorPeOf benchmarks) f.pegRatio

/-- The `growth` sub-dict read by `_score_growth`. -/
structure GrowthInput where
  revenue_cagr_3y : Option ℚ
  eps_cagr_3y : Option ℚ
  revenue_yoy : Option ℚ
deriving DecidableEq

/-- `cagr_score(cagr, is_eps=False)` of `_score_growth` (revenue bands). -/
def cagrScoreRev : Option ℚ → ℚ
  | none => 50
  | some c =>
    if 0.20 ≤ c then 95
    else if 0.12 ≤ c then 80
    else if 0.06 ≤ c then 65
    else if 0 ≤ c then 45
    else 25

/-- `cagr_score(cagr, is_eps=True)` of `_score_growth` (EPS bands). -/
def cagrScoreEps : Option ℚ → ℚ
  | none => 50
  | some c =>
    if 0.25 ≤ c then 95
    else if 0.15 ≤ c then 80
    else if 0.08 ≤ c then 65
    else if 0 ≤ c then 45
    else 20

/-- Source `_score_growth`. -/
def scoreGrowth (g : GrowthInput) : ℚ :=
  let score := (cagrScoreRev g.revenue_cagr_3y + cagrScoreEps g.eps_cagr_3y) / 2
  let score :=
    match g.revenue_yoy with
    | none => score
    | some y =>
      if pyOrVal g.revenue_cagr_3y 0 < y then score + 5
      else if y < pyOrVal g.revenue_cagr_3y 0 then score - 5
      else score
  pyClamp (some score) 0 100

/-- The `profitability` sub-dict read by `_score_profitability`. -/
structure ProfitabilityInput where
  roe : Option ℚ
  operating_margin : Option ℚ
deriving DecidableEq

/-- `roe_score` of `_score_profitability`. -/
def roeScore : Option ℚ → ℚ
  | none => 50
  | some v =>
    if 0.25 ≤ v then 95
    else if 0.15 ≤ v then 80
    else if 0.10 ≤ v then 65
    else if 0.05 ≤ v then 45
    else 25

/-- `margin_score` of `_score_profitability`. -/
def marginScore : Option ℚ → ℚ
  | none => 50
  | some v =>
    if 0.30 ≤ v then 95
    else if 0.20 ≤ v then 80
    else if 0.10 ≤ v then 60
    else if 0 ≤ v then 40
    else 20

/-- Source `_score_profitability`. -/
def scoreProfitability (p : ProfitabilityInput) : ℚ :=
  pyClamp (some ((roeScore p.roe + marginScore p.operating_margin) / 2)) 0 100

/-- The `financial_health` sub-dict read by `_score_financial_health`. -/
structure HealthInput where
  debt_equity : Option ℚ
  interest_coverage : Option ℚ
deriving DecidableEq

/-- `de_score` of `_score_financial_health`. -/
def deScore : Option ℚ → ℚ
  | none => 50
  | some v =>
    if v ≤ 0.3 then 95
    else if v ≤ 0.6 then 80
    else if v ≤ 1.0 then 60
    else if v ≤ 2.0 then 40
    else 20

/-- `ic_score` of `_score_financial_health`. -/
def icScore : Option ℚ → ℚ
  | none => 50
  | some v =>
    if 10 ≤ v then 95
    else if 6 ≤ v then 80
    else if 3 ≤ v then 60
    else if 1 ≤ v then 35
    else 15

/-- Source `_score_financial_health`. -/
def scoreFinancialHealth (h : HealthInput) : ℚ :=
  pyClamp (some ((deScore h.debt_equity + icScore h.interest_coverage) / 2)) 0 100

/-- The technical-indicator dict read by `_score_technicals`. -/
structure TechInput where
  rsi14 : Option ℚ
  rsi_14 : Option ℚ
  rsi : Option ℚ
  trend_label : Option String
  trend : Option String
  max_drawdown_1y : Option ℚ
  max_drawdown : Option ℚ
deriving DecidableEq

/-- `rsi_score` of `_score_technicals`. -/
def rsiScore : Option ℚ → ℚ
  | none => 50
  | some v =>
    if 40 ≤ v ∧ v ≤ 60 then 80
    else if 60 < v ∧ v ≤ 70 then 70
    else if 30 ≤ v ∧ v < 40 then 55
    else if 70 < v then 40
    else 35

/-- `trend_score` of `_score_technicals` (label lower-cased then matched). -/
def trendScore : Option String → ℚ
  | none => 50
  | some l =>
    let s := l.toLower
    if s = "uptrend" then 85
    else if s = "sideways" then 55
    else if s = "downtrend" then 25
    else 50

/-- `dd_score` of `_score_technicals` (works on the drawdown magnitude). -/
def ddScore : Option ℚ → ℚ
  | none => 50
  | some v0 =>
    let v := |v0|
    if v < 0.10 then 90
    else if v < 0.20 then 70
    else if v < 0.35 then 45
    else 25

/-- Source `_score_technicals`. -/
def scoreTechnicals (t : TechInput) : ℚ :=
  let r := pyOr (pyOr t.rsi14 t.rsi_14) t.rsi
  let tr := pyOrStr t.trend_label t.trend
  let dd := pyOr t.max_drawdown_1y t.max_drawdown
  pyClamp (some ((rsiScore r + trendScore tr + ddScore dd) / 3)) 0 100

/-- A nested `valuation` dict inside `fundamental_metrics`: each field is
`some v` when the key is present (with nullable value `v`), `none` when the
key is absent, so that `dict.update` semantics can be modelled. -/
structure ValuationUpdate where
  pe_ttm : Option (Option ℚ)
  pe : Option (Option ℚ)
  trailing_pe : Option (Option ℚ)
  forward_pe : Option (Option ℚ)
  pe_forward : Option (Option ℚ)
  pegRatio : Option (Option ℚ)
deriving DecidableEq

/-- `dict.update` on one key: the updating dict wins when the key is present. -/
def updField (base : Option ℚ) (u : Option (Option ℚ)) : Option ℚ :=
  match u with
  | some v => v
  | none => base

/-- The `fundamental_metrics` dict consumed by `compute_factor_scores`. -/
structure FundamentalMetricsInput where
  pe_ttm : Option ℚ
  forward_pe : Option ℚ
  pegRatio : Option ℚ
  valuation : Option ValuationUpdate
  growth : Option GrowthInput
  profitability : Option ProfitabilityInput
  financial_health : Option HealthInput
deriving DecidableEq

/-- `valuation_data = {pe_ttm, forward_pe, peg_ratio}` then
`valuation_data.update(fundamental_metrics["valuation"])` when present. -/
def buildValuationData (fm : FundamentalMetricsInput) : ValuationData :=
  match fm.valuation with
  | none =>
    { pe_ttm := fm.pe_ttm, pe := none, trailing_pe := none,
      forward_pe := fm.forward_pe, pe_forward := none, pegRatio := fm.pegRatio }
  | some u =>
    { pe_ttm := updField fm.pe_ttm u.pe_ttm
      pe := updField none u.pe
      trailing_pe := updField none u.trailing_pe
      forward_pe := updField fm.forward_pe u.forward_pe
      pe_forward := updField none u.pe_forward
      pegRatio := updField fm.pegRatio u.pegRatio }

/-- `fundamental_metrics.get("growth", {})`. -/
def growthOrEmpty : Option GrowthInput → GrowthInput
  | none => ⟨none, none, none⟩
  | some g => g

/-- `fundamental_metrics.get("profitability", {})`. -/
def profitOrEmpty : Option ProfitabilityInput → ProfitabilityInput
  | none => ⟨none, none⟩
  | some p => p

/-- `fundamental_metrics.get("financial_health", {})`. -/
def healthOrEmpty : Option HealthInput → HealthInput
  | none => ⟨none, none⟩
  | some h => h

/-- Composite weight for valuation (source comment: 25%). -/
def wValuation : ℚ := 0.25

/-- Composite weight for growth (25%). -/
def wGrowth : ℚ := 0.25

/-- Composite weight for profitability (15%). -/
def wProfitability : ℚ := 0.15

/-- Composite weight for financial health (15%). -/
def wHealth : ℚ := 0.15

/-- Composite weight for technicals (20%). -/
def wTechnical : ℚ := 0.20

/-- The valuation sub-score computed inside `compute_factor_scores`. -/
def valuationScoreOf (fm : FundamentalMetricsInput) (sb : Option ScoreBenchmarks) : ℚ :=
  scoreValuation (buildValuationData fm) sb

/-- The growth sub-score computed inside `compute_factor_scores`. -/
def growthScoreOf (fm : FundamentalMetricsInput) : ℚ :=
  scoreGrowth (growthOrEmpty fm.growth)

/-- The profitability sub-score computed inside `compute_factor_scores`. -/
def profitabilityScoreOf (fm : FundamentalMetricsInput) : ℚ :=
  scoreProfitability (profitOrEmpty fm.profitability)

/-- The financial-health sub-score computed inside `compute_factor_scores`. -/
def healthScoreOf (fm : FundamentalMetricsInput) : ℚ :=
  scoreFinancialHealth (healthOrEmpty fm.financial_health)

/-- The weighted composite score of `compute_factor_scores`. -/
def compositeOf (fm : FundamentalMetricsInput) (ti : TechInput)
    (sb : Option ScoreBenchmarks) : ℚ :=
  wValuation * valuationScoreOf fm sb
    + wGrowth * growthScoreOf fm
    + wProfitability * profitabilityScoreOf fm
    + wHealth * healthScoreOf fm
    + wTechnical * scoreTechnicals ti

/-- `sentiment_adjustment = max(-5.0, min(5.0, sentiment_adjustment))`. -/
def clampedSentiment (sa : ℚ) : ℚ := max (-5) (min 5 sa)

/-- `final_score = _clamp(composite_score + sentiment_adjustment)`. -/
def rawFinalScore (fm : FundamentalMetricsInput) (ti : TechInput)
    (sb : Option ScoreBenchmarks) (sa : ℚ) : ℚ :=
  pyClamp (some (compositeOf fm ti sb + clampedSentiment sa)) 0 100

/-- The rating branch of `compute_factor_scores`. -/
def ratingOf (s : ℚ) : String :=
  if 80 ≤ s then "STRONG BUY"
  else if 65 ≤ s then "BUY"
  else if 45 ≤ s then "HOLD"
  else if 30 ≤ s then "REDUCE"
  else "SELL"

/-- Rank of a rating tier, for stating monotonicity (SELL lowest). -/
def ratingRank (r : String) : ℕ :=
  if r = "SELL" then 0
  else if r = "REDUCE" then 1
  else if r = "HOLD" then 2
  else if r = "BUY" then 3
  else 4

/-- The dict returned by `compute_factor_scores`. -/
structure FactorScores where
  valuation_score : ℚ
  growth_score : ℚ
  profitability_score : ℚ
  financial_health_score : ℚ
  technical_score : ℚ
  composite_score : ℚ
  sentiment_adjustment : ℚ
  final_score : ℚ
  rating : String
deriving DecidableEq

/-- Source `compute_factor_scores`: five sub-scores, weighted composite,
clamped sentiment adjustment, final score and rating; numeric outputs are
rounded to two decimal places as in the source. -/
def computeFactorScores (fm : FundamentalMetricsInput) (ti : TechInput)
    (sb : Option ScoreBenchmarks) (sa : ℚ) : FactorScores :=
  { valuation_score := pyRound (valuationScoreOf fm sb) 2
    growth_score := pyRound (growthScoreOf fm) 2
    profitability_score := pyRound (profitabilityScoreOf fm) 2
    financial_health_score := pyRound (healthScoreOf fm) 2
    technical_score := pyRound (scoreTechnicals ti) 2
    composite_score := pyRound (compositeOf fm ti sb) 2
    sentiment_adjustment := pyRound (clampedSentiment sa) 2
    final_score := pyRound (rawFinalScore fm ti sb sa) 2
    rating := ratingOf (rawFinalScore fm ti sb sa) }

/-- Fully-missing fundamental metrics (empty dict). -/
def emptyFundamentalMetrics : FundamentalMetricsInput :=
  ⟨none, none, none, none, none, none, none⟩

/-- Fully-missing technical indicators (empty dict). -/
def emptyTechInput : TechInput :=
  ⟨none, none, none, none, none, none, none⟩

/-! ### Technical indicators (`technical_indicators_tools.py`)

The error-raising contract and the drawdown/SMA/52-week/trend fields are
embedded exactly.  Fields whose Python computation rests on IEEE-float
`NaN`/`inf` propagation or real square roots (RSI, MACD, 30-day volatility,
Bollinger bands, ATR, stochastic oscillator, and the labels derived from
them) are not referenced by any claim and are left out of the embedded
result record. -/

/-- The error raised by `compute_technical_indicators`. -/
inductive TIErr
  | technicalIndicatorError
deriving DecidableEq

/-- One OHLCV row.  The `open` column is named `open_` (Lean keyword). -/
structure PriceRow where
  date : ℚ
  open_ : ℚ
  high : ℚ
  low : ℚ
  close : ℚ
  volume : ℚ
deriving DecidableEq

/-- A price `DataFrame`: a list of column names and the row data. -/
structure PriceDF where
  cols : List String
  rows : List PriceRow

/-- `required_cols = {"date", "open", "high", "low", "close", "volume"}`. -/
def requiredCols : List String :=
  ["date", "open", "high", "low", "close", "volume"]

/-- The last `w` entries of a series (`pandas` `tail(w)` / the window of the
final `rolling(w)` value). -/
def lastWindow (w : ℕ) (xs : List ℚ) : List ℚ :=
  xs.drop (xs.length - w)

/-- `close.rolling(window=w).mean().iloc[-1]` for a series of length ≥ w. -/
def smaLast (w : ℕ) (xs : List ℚ) : ℚ :=
  (lastWindow w xs).sum / w

/-- Minimum of a list (`Series.min()`); 0 on the empty list, which the
guarded code never reaches. -/
def listMin : List ℚ → ℚ
  | [] => 0
  | x :: xs => xs.foldl min x

/-- Maximum of a list (`Series.max()`); 0 on the empty list. -/
def listMax : List ℚ → ℚ
  | [] => 0
  | x :: xs => xs.foldl max x

/-- Running maxima continuing from an already-seen maximum `m`. -/
def cummaxFrom (m : ℚ) : List ℚ → List ℚ
  | [] => []
  | c :: cs => max m c :: cummaxFrom (max m c) cs

/-- `close.cummax()`: running maximum of the series. -/
def cummax : List ℚ → List ℚ
  | [] => []
  | c :: cs => c :: cummaxFrom c cs

/-- `(close - rolling_max) / rolling_max`, elementwise over the series. -/
def drawdowns (xs : List ℚ) : List ℚ :=
  (xs.zip (cummax xs)).map (fun p => (p.1 - p.2) / p.2)

/-- The source's `max_drawdown_1y` before rounding: `drawdown.min()` taken
over the ENTIRE close series (the code applies `cummax`/`min` to the whole
column, not to a trailing window). -/
def maxDrawdownFull (xs : List ℚ) : ℚ :=
  listMin (drawdowns xs)

/-- Modelled from the spec: "minimum of `(close − running_max(close)) /
running_max(close)` over the trailing window", the trailing window being the
last ~252 trading days (one year).  Stated only to compare against the
source's whole-series computation. -/
def maxDrawdownTrailing1y (xs : List ℚ) : ℚ :=
  maxDrawdownFull (lastWindow 252 xs)

/-- The fields of the returned indicator dict that the claims reference. -/
structure TechResult where
  sma20 : ℚ
  sma50 : ℚ
  sma200 : ℚ
  max_drawdown_1y : ℚ
  week_52_high : ℚ
  week_52_low : ℚ
  week_52_position : ℚ
  trend_label : String
deriving DecidableEq

/-- Source `compute_technical_indicators`: raises when a required column is
missing or fewer than 200 rows are given, otherwise computes the indicator
set (claim-relevant fields shown; rounding as in the source). -/
def computeTechnicalIndicators (df : PriceDF) : Except TIErr TechResult :=
  if ¬ requiredCols.all (fun c => df.cols.contains c) then
    .error .technicalIndicatorError
  else if df.rows.length < 200 then
    .error .technicalIndicatorError
  else
    let close := df.rows.map (·.close)
    let sma20 := smaLast 20 close
    let sma50 := smaLast 50 close
    let sma200 := smaLast 200 close
    let last_close := close.getLastD 0
    let mdd := maxDrawdownFull close
    let year_data := lastWindow 252 close
    let w52h := listMax year_data
    let w52l := listMin year_data
    let w52range := w52h - w52l
    let w52pos := if 0 < w52range then (last_close - w52l) / w52range * 100 else 50
    let trend :=
      if sma200 * 1.02 < last_close then "uptrend"
      else if last_close < sma200 * 0.98 then "downtrend"
      else "sideways"
    .ok { sma20 := pyRound sma20 2
          sma50 := pyRound sma50 2
          sma200 := pyRound sma200 2
          max_drawdown_1y := pyRound mdd 4
          week_52_high := pyRound w52h 2
          week_52_low := pyRound w52l 2
          week_52_position := pyRound w52pos 2
          trend_label := trend }

/-- A row with constant price `c`, used for concrete test frames. -/
def constRow (c : ℚ) : PriceRow := ⟨0, c, c, c, c, 0⟩

/-- A 200-row constant-price frame with all required columns. -/
def df200 : PriceDF := ⟨requiredCols, List.replicate 200 (constRow 100)⟩

/-- A 253-row frame whose only drawdown (100 → 50) lies before the trailing
252-day window: the whole-series drawdown is −1/2 while the trailing-window
drawdown is 0. -/
def dfCex : PriceDF :=
  ⟨requiredCols, constRow 100 :: constRow 50 :: List.replicate 251 (constRow 100)⟩

/-! ### Fundamental metrics (`fundamental_metrics_tools.py`)

Values are embedded as `ℝ` because `_cagr` takes a fractional real power.
The function is embedded in `Except`: besides its declared
`FundamentalMetricsError`, Python's `-` on `None` operands raises a
`TypeError`, which the embedding records explicitly. -/

/-- Errors `compute_fundamental_metrics` can raise: its declared
`FundamentalMetricsError`, or Python's built-in `TypeError` (raised by
`x - y` when an operand is `None`). -/
inductive FMErr
  | fundamentalMetricsError
  | typeError
deriving DecidableEq

/-- Source `_safe_div`: `None` when the numerator is `None` or the
denominator is `None` or zero. -/
noncomputable def safeDiv (num den : Option ℝ) : Option ℝ :=
  match num, den with
  | some n, some d => if d = 0 then none else some (n / d)
  | _, _ => none

/-- Python's `a - b` on nullable numbers: a `TypeError` when either operand
is `None` (evaluated before any callee can guard). -/
def pySubR : Option ℝ → Option ℝ → Except FMErr ℝ
  | some a, some b => .ok (a - b)
  | _, _ => .error .typeError

/-- Source `_cagr(start, end, years)`: `(end/start)^(1/years) - 1`, `None`
when start or end is `None`/zero or `years ≤ 0`. -/
noncomputable def cagr (start stop : Option ℝ) (years : ℤ) : Option ℝ :=
  match start, stop with
  | some s, some e =>
    if s = 0 ∨ e = 0 ∨ years ≤ 0 then none
    else some ((e / s) ^ ((1 : ℝ) / (years : ℝ)) - 1)
  | _, _ => none

/-- One income-statement period (the keys the function reads). -/
structure IncomeRow where
  revenue : Option ℝ
  eps : Option ℝ
  gross_profit : Option ℝ
  operating_income : Option ℝ
  net_income : Option ℝ
  interest_expense : Option ℝ
  ebit : Option ℝ

/-- One balance-sheet period (the keys the function reads). -/
structure BalanceRow where
  total_equity : Option ℝ
  total_assets : Option ℝ
  total_debt : Option ℝ
  cash_and_equivalents : Option ℝ
  current_assets : Option ℝ
  current_liabilities : Option ℝ

/-- The `fundamentals` argument.  The `cash_flow` list is read by the source
but never used, so only its presence is kept. -/
structure Fundamentals where
  income_statement : List IncomeRow
  balance_sheet : List BalanceRow
  cash_flow : List Unit

/-- An income row with every value `None`. -/
def emptyIncomeRow : IncomeRow := ⟨none, none, none, none, none, none, none⟩

/-- A balance row with every value `None`. -/
def emptyBalanceRow : BalanceRow := ⟨none, none, none, none, none, none⟩

/-- The `growth` sub-record of the result. -/
structure GrowthMetrics where
  revenue_cagr_3y : Option ℝ
  eps_cagr_3y : Option ℝ
  revenue_yoy : Option ℝ
  eps_yoy : Option ℝ
  growth_trend : String

/-- The `profitability` sub-record of the result. -/
structure ProfitabilityMetrics where
  gross_margin : Option ℝ
  operating_margin : Option ℝ
  net_margin : Option ℝ
  roe : Option ℝ
  roa : Option ℝ
  profitability_level : String

/-- The `financial_health` sub-record of the result; `currentRatio` embeds
the source key `current_ratio`. -/
structure FinancialHealthMetrics where
  debt_equity : Option ℝ
  interest_coverage : Option ℝ
  cash_to_debt : Option ℝ
  currentRatio : Option ℝ
  balance_sheet_strength : String

/-- The dict returned by `compute_fundamental_metrics`. -/
structure FundamentalMetricsResult where
  growth : GrowthMetrics
  profitability : ProfitabilityMetrics
  financial_health : FinancialHealthMetrics

/-- Source `compute_fundamental_metrics`, line by line: the precondition
check, growth metrics (where the YoY numerators `latest - prev` are Python
subtractions that raise `TypeError` on `None`), profitability and
financial-health metrics. -/
noncomputable def computeFundamentalMetrics (f : Fundamentals) :
    Except FMErr FundamentalMetricsResult :=
  if f.income_statement.length < 2 ∨ f.balance_sheet.length < 1 then
    .error .fundamentalMetricsError
  else
    let latest_inc := f.income_statement.getD 0 emptyIncomeRow
    let prev_inc := f.income_statement.getD 1 emptyIncomeRow
    let latest_bal := f.balance_sheet.getD 0 emptyBalanceRow
    let revenues := f.income_statement.filterMap (·.revenue)
    let eps_values := f.income_statement.filterMap (·.eps)
    let revenue_cagr :=
      if 4 ≤ revenues.length then cagr revenues.getLast? revenues.head? 3 else none
    let eps_cagr :=
      if 4 ≤ eps_values.length then cagr eps_values.getLast? eps_values.head? 3 else none
    do
      let revNum ← pySubR latest_inc.revenue prev_inc.revenue
      let revenue_yoy := safeDiv (some revNum) prev_inc.revenue
      let epsNum ← pySubR latest_inc.eps prev_inc.eps
      let epsDen : Option ℝ :=
        match prev_inc.eps with
        | some v => if v = 0 then none else some |v|
        | none => none
      let eps_yoy := safeDiv (some epsNum) epsDen
      let growth_trend :=
        match revenue_yoy with
        | none => "unknown"
        | some y =>
          if 0.10 < y then "accelerating"
          else if 0.03 < y then "stable"
          else "slowing"
      let revenue := latest_inc.revenue
      let gross_margin := safeDiv latest_inc.gross_profit revenue
      let operating_margin := safeDiv latest_inc.operating_income revenue
      let net_margin := safeDiv latest_inc.net_income revenue
      let equity := latest_bal.total_equity
      let assets := latest_bal.total_assets
      let roe := safeDiv latest_inc.net_income equity
      let roa := safeDiv latest_inc.net_income assets
      let profitability_level :=
        match roe with
        | none => "unknown"
        | some r => if 0.20 ≤ r then "high" else if 0.10 ≤ r then "medium" else "low"
      let total_debt := latest_bal.total_debt
      let debt_equity := safeDiv total_debt equity
      let cash_to_debt := safeDiv latest_bal.cash_and_equivalents total_debt
      let currentRatio := safeDiv latest_bal.current_assets latest_bal.current_liabilities
      let interest_coverage : Option ℝ :=
        match latest_inc.interest_expense with
        | some v => if v = 0 then none else safeDiv latest_inc.ebit (some |v|)
        | none => none
      let balance_strength :=
        match debt_equity with
        | none => "unknown"
        | some d => if d ≤ 0.5 then "strong" else if d ≤ 1.0 then "acceptable" else "weak"
      .ok
        { growth :=
            { revenue_cagr_3y := revenue_cagr, eps_cagr_3y := eps_cagr,
              revenue_yoy := revenue_yoy, eps_yoy := eps_yoy,
              growth_trend := growth_trend }
          profitability :=
            { gross_margin := gross_margin, operating_margin := operating_margin,
              net_margin := net_margin, roe := roe, roa := roa,
              profitability_level := profitability_level }
          financial_health :=
            { debt_equity := debt_equity, interest_coverage := interest_coverage,
              cash_to_debt := cash_to_debt, currentRatio := currentRatio,
              balance_sheet_strength := balance_strength } }

/-- Fundamentals satisfying the precondition (2 income periods, 1 balance
period) with every metric value `None`. -/
def allNullFundamentals : Fundamentals :=
  ⟨[emptyIncomeRow, emptyIncomeRow], [emptyBalanceRow], []⟩

/-! ### Valuation assessment (`valuation_tools._calculate_valuation_assessment`) -/

/-- P/E TTM bucket: contributes one score when `pe_ttm` is truthy and
positive, nothing otherwise. -/
def peTtmBucket : Option ℚ → List ℚ
  | some v =>
    if 0 < v then
      [if v < 10 then 90
       else if v < 15 then 75
       else if v < 20 then 60
       else if v < 25 then 50
       else if v < 35 then 35
       else 20]
    else []
  | none => []

/-- Forward P/E bucket. -/
def peForwardBucket : Option ℚ → List ℚ
  | some v =>
    if 0 < v then
      [if v < 12 then 85 else if v < 18 then 70 else if v < 25 then 50 else 30]
    else []
  | none => []

/-- PEG-ratio bucket. -/
def pegBucket : Option ℚ → List ℚ
  | some v =>
    if 0 < v then
      [if v < 0.5 then 95
       else if v < 1.0 then 80
       else if v < 1.5 then 60
       else if v < 2.0 then 40
       else 20]
    else []
  | none => []

/-- EV/EBITDA bucket. -/
def evEbitdaBucket : Option ℚ → List ℚ
  | some v =>
    if 0 < v then
      [if v < 8 then 85
       else if v < 12 then 70
       else if v < 16 then 55
       else if v < 20 then 40
       else 25]
    else []
  | none => []

/-- FCF-yield bucket: contributes whenever `fcf_yield` is truthy (even when
negative, scoring 20). -/
def fcfYieldBucket : Option ℚ → List ℚ
  | some v =>
    if v = 0 then []
    else
      [if 8 < v then 90
       else if 5 < v then 75
       else if 3 < v then 60
       else if 1 < v then 45
       else if 0 < v then 35
       else 20]
  | none => []

/-- Price-to-book bucket. -/
def ptbBucket : Option ℚ → List ℚ
  | some v =>
    if 0 < v then
      [if v < 1 then 90 else if v < 2 then 70 else if v < 4 then 50 else 30]
    else []
  | none => []

/-- The `scores` list accumulated by `_calculate_valuation_assessment`, in
source order; absent (or non-positive, per each branch's own test) metrics
contribute nothing. -/
def valuationScoresList (pe_ttm pe_forward peg price_to_book ev_to_ebitda
    fcf_yield : Option ℚ) : List ℚ :=
  peTtmBucket pe_ttm ++ peForwardBucket pe_forward ++ pegBucket peg
    ++ evEbitdaBucket ev_to_ebitda ++ fcfYieldBucket fcf_yield
    ++ ptbBucket price_to_book

/-- Source `_calculate_valuation_assessment`: unweighted average of the
contributed bucket scores (rounded to one decimal), defaulting to 50 when no
metric contributed; label from fixed thresholds.  `price_to_fcf` is accepted
but never read, as in the source. -/
def calcValuationAssessment (pe_ttm pe_forward peg price_to_book ev_to_ebitda
    fcf_yield price_to_fcf : Option ℚ) : ℚ × String :=
  let _ := price_to_fcf
  let scores := valuationScoresList pe_ttm pe_forward peg price_to_book
    ev_to_ebitda fcf_yield
  let valuation_score : ℚ :=
    if scores.isEmpty then 50 else pyRound (scores.sum / scores.length) 1
  let valuation_label :=
    if 70 ≤ valuation_score then "Undervalued"
    else if 45 ≤ valuation_score then "Fair Value"
    else "Overvalued"
  (valuation_score, valuation_label)

/-! ### Sector benchmarks (`sector_benchmarks_tools.py`, `config.py`) -/

/-- The `valuation` record of one sector's static benchmarks. -/
structure ValuationBenchmark where
  pe_median : ℚ
  forward_pe_median : ℚ
  peg_median : ℚ
  ps_median : ℚ
deriving DecidableEq

/-- The `profitability` record of one sector's static benchmarks. -/
structure ProfitabilityBenchmark where
  gross_margin_median : ℚ
  operating_margin_median : ℚ
  net_margin_median : ℚ
deriving DecidableEq

/-- One sector's entry in `config.SECTOR_BENCHMARKS`. -/
structure SectorEntry where
  valuation : ValuationBenchmark
  profitability : ProfitabilityBenchmark
deriving DecidableEq

/-- `config.SECTOR_BENCHMARKS`: the static benchmark table, 11 sectors. -/
def SECTOR_BENCHMARKS : List (String × SectorEntry) :=
  [("Technology", ⟨⟨32.0, 27.0, 1.9, 7.5⟩, ⟨0.58, 0.26, 0.21⟩⟩),
   ("Healthcare", ⟨⟨20.0, 17.0, 1.8, 4.0⟩, ⟨0.62, 0.22, 0.16⟩⟩),
   ("Financial Services", ⟨⟨14.0, 12.5, 1.3, 3.5⟩, ⟨0.50, 0.32, 0.24⟩⟩),
   ("Consumer Cyclical", ⟨⟨22.0, 19.0, 1.5, 1.8⟩, ⟨0.38, 0.12, 0.07⟩⟩),
   ("Industrials", ⟨⟨22.0, 19.0, 1.6, 2.2⟩, ⟨0.32, 0.14, 0.09⟩⟩),
   ("Energy", ⟨⟨12.0, 10.5, 1.0, 1.3⟩, ⟨0.35, 0.18, 0.11⟩⟩),
   ("Utilities", ⟨⟨18.0, 16.5, 2.8, 2.5⟩, ⟨0.42, 0.22, 0.14⟩⟩),
   ("Communication Services", ⟨⟨20.0, 17.0, 1.4, 3.8⟩, ⟨0.55, 0.24, 0.16⟩⟩),
   ("Basic Materials", ⟨⟨15.0, 13.0, 1.2, 1.8⟩, ⟨0.28, 0.14, 0.09⟩⟩),
   ("Real Estate", ⟨⟨38.0, 34.0, 3.0, 9.0⟩, ⟨0.58, 0.38, 0.22⟩⟩),
   ("Consumer Defensive", ⟨⟨24.0, 21.0, 2.5, 2.8⟩, ⟨0.36, 0.14, 0.09⟩⟩)]

/-- The error raised by `get_sector_benchmarks`. -/
inductive SBErr
  | sectorBenchmarkError
deriving DecidableEq

/-- The dict returned by `get_sector_benchmarks`.  The `as_of_date` field
(wall-clock `date.today()`) is not modelled. -/
structure SectorBenchmarkResult where
  sector : String
  valuation : ValuationBenchmark
  profitability : ProfitabilityBenchmark
  source : String
deriving DecidableEq

/-- Source `get_sector_benchmarks`: raises when the sector is falsy (`None`
or empty string); unknown sectors fall back to `"Technology"`.  The `getD`
default is never reached: the resolved name is always present in the
table. -/
def getSectorBenchmarks (ticker : String) (sector : Option String) :
    Except SBErr SectorBenchmarkResult :=
  let _ := ticker
  match sector with
  | none => .error .sectorBenchmarkError
  | some s =>
    if s = "" then .error .sectorBenchmarkError
    else
      let s2 := if (SECTOR_BENCHMARKS.lookup s).isSome then s else "Technology"
      let entry := (SECTOR_BENCHMARKS.lookup s2).getD
        ⟨⟨32.0, 27.0, 1.9, 7.5⟩, ⟨0.58, 0.26, 0.21⟩⟩
      .ok ⟨s2, entry.valuation, entry.profitability, "static_v1"⟩

/- The Batteries rational-number operations are marked irreducible, which
blocks `decide`-style evaluation of the embedded functions on concrete
inputs; restore default reducibility locally for this development. -/
attribute [local semireducible] Rat.mul Rat.add Rat.sub Rat.inv Rat.ofScientific

/-! ### Arithmetic lemmas about rounding and clamping -/

/-- Round-half-to-even never exceeds an integer bound of its argument. -/
theorem roundHalfEven_le (x : ℚ) (c : ℤ) (h : x ≤ (c : ℚ)) : roundHalfEven x ≤ c := by
  have hf : ⌊x⌋ ≤ c := by
    have h2 := Int.floor_le_floor h
    rwa [Int.floor_intCast] at h2
  unfold roundHalfEven
  split_ifs with h1 h2 h3
  · exact hf
  · rcases lt_or_eq_of_le hf with hlt | heq
    · omega
    · exfalso
      have hxc : x ≤ (⌊x⌋ : ℚ) := by rw [heq]; exact h
      linarith
  · exact hf
  · rcases lt_or_eq_of_le hf with hlt | heq
    · omega
    · exfalso
      have hx : x - (⌊x⌋ : ℚ) = 1/2 := le_antisymm (not_lt.mp h2) (not_lt.mp h1)
      have hxc : x ≤ (⌊x⌋ : ℚ) := by rw [heq]; exact h
      linarith

/-- Round-half-to-even never falls below an integer bound of its argument. -/
theorem roundHalfEven_ge (x : ℚ) (c : ℤ) (h : (c : ℚ) ≤ x) : c ≤ roundHalfEven x := by
  have hf : c ≤ ⌊x⌋ := by
    have h2 := Int.floor_le_floor h
    rwa [Int.floor_intCast] at h2
  unfold roundHalfEven
  split_ifs <;> omega

/-- `pyRound` preserves an integer upper bound. -/
theorem pyRound_le (x : ℚ) (c : ℤ) (n : ℕ) (h : x ≤ (c : ℚ)) : pyRound x n ≤ (c : ℚ) := by
  unfold pyRound
  have hp : (0 : ℚ) < 10 ^ n := by positivity
  rw [div_le_iff₀ hp]
  have h1 : x * 10 ^ n ≤ ((c * 10 ^ n : ℤ) : ℚ) := by
    push_cast
    exact mul_le_mul_of_nonneg_right h (by positivity)
  have h2 := roundHalfEven_le _ _ h1
  exact_mod_cast h2

/-- `pyRound` preserves an integer lower bound. -/
theorem pyRound_ge (x : ℚ) (c : ℤ) (n : ℕ) (h : (c : ℚ) ≤ x) : (c : ℚ) ≤ pyRound x n := by
  unfold pyRound
  have hp : (0 : ℚ) < 10 ^ n := by positivity
  rw [le_div_iff₀ hp]
  have h1 : ((c * 10 ^ n : ℤ) : ℚ) ≤ x * 10 ^ n := by
    push_cast
    exact mul_le_mul_of_nonneg_right h (by positivity)
  have h2 := roundHalfEven_ge _ _ h1
  exact_mod_cast h2

/-- A clamp of a present value lies within its bounds. -/
theorem pyClamp_some_bounds (v : ℚ) :
    0 ≤ pyClamp (some v) 0 100 ∧ pyClamp (some v) 0 100 ≤ 100 := by
  constructor
  · exact le_max_left 0 _
  · exact max_le (by norm_num) (min_le_left 100 v)

/-- The core valuation score lies in [0,100]. -/
theorem scoreValuationCore_bounds (pe : ℚ) (sp pegR : Option ℚ) :
    0 ≤ scoreValuationCore pe sp pegR ∧ scoreValuationCore pe sp pegR ≤ 100 := by
  unfold scoreValuationCore
  split_ifs
  · norm_num
  · exact pyClamp_some_bounds _

/-- The valuation sub-score lies in [0,100]. -/
theorem scoreValuation_bounds (f : ValuationData) (b : Option ScoreBenchmarks) :
    0 ≤ scoreValuation f b ∧ scoreValuation f b ≤ 100 := by
  unfold scoreValuation
  cases peToUse f with
  | none => norm_num
  | some pe => exact scoreValuationCore_bounds pe _ _

/-- The growth sub-score lies in [0,100]. -/
theorem scoreGrowth_bounds (g : GrowthInput) :
    0 ≤ scoreGrowth g ∧ scoreGrowth g ≤ 100 := by
  unfold scoreGrowth
  exact pyClamp_some_bounds _

/-- The profitability sub-score lies in [0,100]. -/
theorem scoreProfitability_bounds (p : ProfitabilityInput) :
    0 ≤ scoreProfitability p ∧ scoreProfitability p ≤ 100 := by
  unfold scoreProfitability
  exact pyClamp_some_bounds _

/-- The financial-health sub-score lies in [0,100]. -/
theorem scoreFinancialHealth_bounds (h : HealthInput) :
    0 ≤ scoreFinancialHealth h ∧ scoreFinancialHealth h ≤ 100 := by
  unfold scoreFinancialHealth
  exact pyClamp_some_bounds _

/-- The technical sub-score lies in [0,100]. -/
theorem scoreTechnicals_bounds (t : TechInput) :
    0 ≤ scoreTechnicals t ∧ scoreTechnicals t ≤ 100 := by
  unfold scoreTechnicals
  exact pyClamp_some_bounds _

/-- The weighted composite lies in [0,100]. -/
theorem compositeOf_bounds (fm : FundamentalMetricsInput) (ti : TechInput)
    (sb : Option ScoreBenchmarks) :
    0 ≤ compositeOf fm ti sb ∧ compositeOf fm ti sb ≤ 100 := by
  obtain ⟨v0, v1⟩ := scoreValuation_bounds (buildValuationData fm) sb
  obtain ⟨g0, g1⟩ := scoreGrowth_bounds (growthOrEmpty fm.growth)
  obtain ⟨p0, p1⟩ := scoreProfitability_bounds (profitOrEmpty fm.profitability)
  obtain ⟨h0, h1⟩ := scoreFinancialHealth_bounds (healthOrEmpty fm.financial_health)
  obtain ⟨t0, t1⟩ := scoreTechnicals_bounds ti
  unfold compositeOf valuationScoreOf growthScoreOf profitabilityScoreOf healthScoreOf
  unfold wValuation wGrowth wProfitability wHealth wTechnical
  constructor <;> nlinarith

/-- `pyRound` maps [0,100] into [0,100]. -/
theorem pyRound_bounds_0_100 (x : ℚ) (n : ℕ) (h0 : 0 ≤ x) (h1 : x ≤ 100) :
    0 ≤ pyRound x n ∧ pyRound x n ≤ 100 := by
  constructor
  · have h := pyRound_ge x 0 n (by exact_mod_cast h0)
    exact_mod_cast h
  · have h := pyRound_le x 100 n (by exact_mod_cast h1)
    exact_mod_cast h

/-! ### Claim theorems -/

/-- C1: for every input to `compute_factor_scores` (any fundamental metrics,
any technical indicators, any sector benchmarks, and any rational
`sentiment_adjustment`, including values outside [-5,5]), the five
sub-scores, the composite score and the final score of the returned record
all lie in [0,100]; the effective sentiment adjustment actually added (and
returned) is the input clamped to [-5,5]. -/
theorem C1_factor_scores_bounded (fm : FundamentalMetricsInput) (ti : TechInput)
    (sb : Option ScoreBenchmarks) (sa : ℚ) :
    (0 ≤ (computeFactorScores fm ti sb sa).valuation_score ∧
      (computeFactorScores fm ti sb sa).valuation_score ≤ 100) ∧
    (0 ≤ (computeFactorScores fm ti sb sa).growth_score ∧
      (computeFactorScores fm ti sb sa).growth_score ≤ 100) ∧
    (0 ≤ (computeFactorScores fm ti sb sa).profitability_score ∧
      (computeFactorScores fm ti sb sa).profitability_score ≤ 100) ∧
    (0 ≤ (computeFactorScores fm ti sb sa).financial_health_score ∧
      (computeFactorScores fm ti sb sa).financial_health_score ≤ 100) ∧
    (0 ≤ (computeFactorScores fm ti sb sa).technical_score ∧
      (computeFactorScores fm ti sb sa).technical_score ≤ 100) ∧
    (0 ≤ (computeFactorScores fm ti sb sa).composite_score ∧
      (computeFactorScores fm ti sb sa).composite_score ≤ 100) ∧
    (0 ≤ (computeFactorScores fm ti sb sa).final_score ∧
      (computeFactorScores fm ti sb sa).final_score ≤ 100) ∧
    (computeFactorScores fm ti sb sa).sentiment_adjustment
      = pyRound (max (-5) (min 5 sa)) 2 ∧
    (computeFactorScores fm ti sb sa).final_score
      = pyRound (pyClamp (some (compositeOf fm ti sb + max (-5) (min 5 sa))) 0 100) 2 := by
  have hv := scoreValuation_bounds (buildValuationData fm) sb
  have hg := scoreGrowth_bounds (growthOrEmpty fm.growth)
  have hp := scoreProfitability_bounds (profitOrEmpty fm.profitability)
  have hh := scoreFinancialHealth_bounds (healthOrEmpty fm.financial_health)
  have ht := scoreTechnicals_bounds ti
  have hc := compositeOf_bounds fm ti sb
  have hf : 0 ≤ rawFinalScore fm ti sb sa ∧ rawFinalScore fm ti sb sa ≤ 100 :=
    pyClamp_some_bounds _
  exact ⟨pyRound_bounds_0_100 _ 2 hv.1 hv.2, pyRound_bounds_0_100 _ 2 hg.1 hg.2,
    pyRound_bounds_0_100 _ 2 hp.1 hp.2, pyRound_bounds_0_100 _ 2 hh.1 hh.2,
    pyRound_bounds_0_100 _ 2 ht.1 ht.2, pyRound_bounds_0_100 _ 2 hc.1 hc.2,
    pyRound_bounds_0_100 _ 2 hf.1 hf.2, rfl, rfl⟩

/-- C3: with fully-missing inputs (empty fundamental-metrics and
technical-indicator records, no benchmarks, zero sentiment adjustment) every
sub-score equals exactly 50 and the composite equals exactly 50; the five
weights 0.25, 0.25, 0.15, 0.15, 0.20 sum to 1. -/
theorem C3_missing_inputs_neutral :
    (computeFactorScores emptyFundamentalMetrics emptyTechInput none 0).valuation_score = 50 ∧
    (computeFactorScores emptyFundamentalMetrics emptyTechInput none 0).growth_score = 50 ∧
    (computeFactorScores emptyFundamentalMetrics emptyTechInput none 0).profitability_score = 50 ∧
    (computeFactorScores emptyFundamentalMetrics emptyTechInput none 0).financial_health_score = 50 ∧
    (computeFactorScores emptyFundamentalMetrics emptyTechInput none 0).technical_score = 50 ∧
    (computeFactorScores emptyFundamentalMetrics emptyTechInput none 0).composite_score = 50 ∧
    wValuation + wGrowth + wProfitability + wHealth + wTechnical = 1 := by
  decide

/-- Rating rank as a direct function of the final score. -/
theorem ratingRank_ratingOf (s : ℚ) :
    ratingRank (ratingOf s) =
      if 80 ≤ s then 4 else if 65 ≤ s then 3 else if 45 ≤ s then 2
      else if 30 ≤ s then 1 else 0 := by
  unfold ratingOf
  split_ifs <;> decide

/-- C4: the rating is a monotonic, non-decreasing step function of the final
score alone, with inclusive thresholds 80/65/45/30 (so 79.9 rates BUY and
80 rates STRONG BUY), and the record's rating is exactly this function of
the computed final score. -/
theorem C4_rating_step_function :
    (∀ s t : ℚ, s ≤ t → ratingRank (ratingOf s) ≤ ratingRank (ratingOf t)) ∧
    (∀ s : ℚ, ratingOf s =
      if 80 ≤ s then "STRONG BUY" else if 65 ≤ s then "BUY"
      else if 45 ≤ s then "HOLD" else if 30 ≤ s then "REDUCE" else "SELL") ∧
    ratingOf (799/10) = "BUY" ∧ ratingOf 80 = "STRONG BUY" ∧
    (∀ (fm : FundamentalMetricsInput) (ti : TechInput) (sb : Option ScoreBenchmarks)
      (sa : ℚ), (computeFactorScores fm ti sb sa).rating
        = ratingOf (rawFinalScore fm ti sb sa)) := by
  refine ⟨?_, fun s => rfl, by decide, by decide, fun fm ti sb sa => rfl⟩
  intro s t hst
  rw [ratingRank_ratingOf, ratingRank_ratingOf]
  split_ifs <;> first | omega | (exfalso; linarith)

/-- Witness for C4: a concrete application of the monotonicity part. -/
theorem C4_rating_step_function_witness :
    ratingRank (ratingOf 10) ≤ ratingRank (ratingOf 90) :=
  C4_rating_step_function.1 10 90 (by norm_num)

/-- C10: when the combined forward P/E is present and nonzero, the valuation
sub-score ignores the trailing P/E fields entirely; when the forward P/E is
absent or exactly 0, the P/E put to use falls back to the trailing P/E. -/
theorem C10_forward_pe_priority :
    (∀ (f : ValuationData) (b : Option ScoreBenchmarks) (v : ℚ), v ≠ 0 →
      forwardPeOf f = some v →
      scoreValuation f b =
        scoreValuation { f with pe_ttm := none, pe := none, trailing_pe := none } b) ∧
    (∀ f : ValuationData, forwardPeOf f = none ∨ forwardPeOf f = some 0 →
      peToUse f = peTtmOf f) := by
  constructor
  · intro f b v hv hf
    have h1 : peToUse f = some v := by
      unfold peToUse
      rw [hf]
      simp [pyOr, hv]
    have h2 : peToUse { f with pe_ttm := none, pe := none, trailing_pe := none }
        = some v := by
      unfold peToUse
      rw [show forwardPeOf { f with pe_ttm := none, pe := none, trailing_pe := none }
        = some v from hf]
      simp [pyOr, hv]
    unfold scoreValuation
    rw [h1, h2]
  · intro f h
    rcases h with h | h <;> unfold peToUse <;> rw [h] <;> simp [pyOr]

/-- A concrete valuation dict with both a trailing and a forward P/E. -/
def c10Input : ValuationData := ⟨some 50, none, none, some 10, none, none⟩

/-- Witness for C10: with forward P/E 10 present, dropping the trailing P/E
50 leaves the valuation score unchanged. -/
theorem C10_forward_pe_priority_witness :
    scoreValuation c10Input none =
      scoreValuation { c10Input with pe_ttm := none, pe := none, trailing_pe := none }
        none :=
  C10_forward_pe_priority.1 c10Input none 10 (by norm_num) (by decide)

/-- C5: `compute_technical_indicators` raises its `TechnicalIndicatorError`
exactly when a required column is missing or fewer than 200 rows are given;
for every frame with all required columns and at least 200 rows it returns a
result without raising. -/
theorem C5_precondition_error (df : PriceDF) :
    computeTechnicalIndicators df = .error .technicalIndicatorError ↔
      (¬ requiredCols.all (fun c => df.cols.contains c) = true ∨
        df.rows.length < 200) := by
  unfold computeTechnicalIndicators
  by_cases h1 : requiredCols.all (fun c => df.cols.contains c) = true
  · rw [if_neg (not_not_intro h1)]
    by_cases h2 : df.rows.length < 200
    · rw [if_pos h2]
      exact ⟨fun _ => Or.inr h2, fun _ => rfl⟩
    · rw [if_neg h2]
      constructor
      · intro h
        exact Except.noConfusion h
      · intro h
        rcases h with h | h
        · exact absurd h1 h
        · exact absurd h h2
  · rw [if_pos h1]
    exact ⟨fun _ => Or.inl h1, fun _ => rfl⟩

/-- Witness for C5: the empty frame raises the error. -/
theorem C5_precondition_error_witness :
    computeTechnicalIndicators ⟨[], []⟩ = .error .technicalIndicatorError :=
  (C5_precondition_error ⟨[], []⟩).mpr (Or.inl (by decide))

/-- Unfolding equation: running maximum of a nonempty series. -/
theorem cummax_cons (c : ℚ) (cs : List ℚ) : cummax (c :: cs) = c :: cummaxFrom c cs := rfl

/-- Unfolding equation for `cummaxFrom` on a cons cell. -/
theorem cummaxFrom_cons (m c : ℚ) (cs : List ℚ) :
    cummaxFrom m (c :: cs) = max m c :: cummaxFrom (max m c) cs := rfl

/-- Unfolding equation for `listMin` on a cons cell. -/
theorem listMin_cons (x : ℚ) (xs : List ℚ) : listMin (x :: xs) = xs.foldl min x := rfl

/-- Running maxima over a constant run stay at the running maximum. -/
theorem cummaxFrom_replicate (n : ℕ) (m c : ℚ) :
    cummaxFrom m (List.replicate n c) = List.replicate n (max m c) := by
  induction n generalizing m with
  | zero => rfl
  | succ n ih =>
    rw [List.replicate_succ, cummaxFrom_cons, ih, List.replicate_succ, max_assoc, max_self]

/-- Zipping two equal-length constant runs. -/
theorem zip_replicate_eq (n : ℕ) (a b : ℚ) :
    (List.replicate n a).zip (List.replicate n b) = List.replicate n (a, b) := by
  induction n with
  | zero => rfl
  | succ n ih =>
    rw [List.replicate_succ, List.replicate_succ, List.zip_cons_cons, ih,
      List.replicate_succ]

/-- Folding `min` over a constant run. -/
theorem foldl_min_replicate (n : ℕ) (a c : ℚ) :
    (List.replicate n c).foldl min a = if n = 0 then a else min a c := by
  induction n generalizing a with
  | zero => rfl
  | succ n ih =>
    rw [List.replicate_succ, List.foldl_cons, ih, if_neg (Nat.succ_ne_zero n)]
    by_cases h : n = 0
    · rw [if_pos h]
    · rw [if_neg h, min_assoc, min_self]

/-- Folding `min` never exceeds the initial accumulator. -/
theorem foldl_min_le (l : List ℚ) (a : ℚ) : l.foldl min a ≤ a := by
  induction l generalizing a with
  | nil => exact le_refl a
  | cons x l ih => exact le_trans (ih (min a x)) (min_le_left a x)

/-- The whole-series drawdown minimum is never positive: the first drawdown
entry is exactly 0. -/
theorem maxDrawdownFull_cons_nonpos (c : ℚ) (cs : List ℚ) :
    maxDrawdownFull (c :: cs) ≤ 0 := by
  unfold maxDrawdownFull drawdowns
  rw [cummax_cons, List.zip_cons_cons, List.map_cons]
  have hx : (c - c) / c = 0 := by rw [sub_self, zero_div]
  rw [hx, listMin_cons]
  exact foldl_min_le _ 0

/-- The close column of the counterexample frame. -/
theorem dfCex_closes :
    dfCex.rows.map (·.close) = 100 :: 50 :: List.replicate 251 (100 : ℚ) := by
  show (constRow 100 :: constRow 50 :: List.replicate 251 (constRow 100)).map (·.close)
      = 100 :: 50 :: List.replicate 251 (100 : ℚ)
  rw [List.map_cons, List.map_cons, List.map_replicate]
  rfl

/-- The row count of the counterexample frame. -/
theorem dfCex_length : dfCex.rows.length = 253 := by
  show (constRow 100 :: constRow 50 :: List.replicate 251 (constRow 100)).length = 253
  rw [List.length_cons, List.length_cons, List.length_replicate]

/-- Whole-series drawdown of the counterexample closes: −1/2. -/
theorem maxDrawdownFull_dfCex :
    maxDrawdownFull (100 :: 50 :: List.replicate 251 (100 : ℚ)) = -1/2 := by
  have hm1 : max (100 : ℚ) 50 = 100 := max_eq_left (by norm_num)
  unfold maxDrawdownFull drawdowns
  rw [cummax_cons, cummaxFrom_cons, cummaxFrom_replicate, hm1, max_self]
  rw [List.zip_cons_cons, List.zip_cons_cons, zip_replicate_eq]
  rw [List.map_cons, List.map_cons, List.map_replicate]
  have h0 : ((100 : ℚ) - 100) / 100 = 0 := by norm_num
  have h1 : ((50 : ℚ) - 100) / 100 = -1/2 := by norm_num
  rw [h0, h1, listMin_cons, List.foldl_cons, foldl_min_replicate,
    if_neg (by norm_num : (251 : ℕ) ≠ 0)]
  rw [min_eq_right (by norm_num : (-1/2 : ℚ) ≤ 0),
    min_eq_left (by norm_num : (-1/2 : ℚ) ≤ 0)]

/-- Trailing-window drawdown of the counterexample closes: 0 (the crash lies
outside the trailing 252 entries). -/
theorem maxDrawdownTrailing1y_dfCex :
    maxDrawdownTrailing1y (100 :: 50 :: List.replicate 251 (100 : ℚ)) = 0 := by
  have hwin : lastWindow 252 (100 :: 50 :: List.replicate 251 (100 : ℚ))
      = 50 :: List.replicate 251 100 := by
    unfold lastWindow
    rw [List.length_cons, List.length_cons, List.length_replicate]
    norm_num
  unfold maxDrawdownTrailing1y
  rw [hwin]
  unfold maxDrawdownFull drawdowns
  rw [cummax_cons, cummaxFrom_replicate, max_eq_right (by norm_num : (50 : ℚ) ≤ 100)]
  rw [List.zip_cons_cons, zip_replicate_eq, List.map_cons, List.map_replicate]
  have h0 : ((50 : ℚ) - 50) / 50 = 0 := by norm_num
  have h1 : ((100 : ℚ) - 100) / 100 = 0 := by norm_num
  rw [h0, h1, listMin_cons, foldl_min_replicate, if_neg (by norm_num : (251 : ℕ) ≠ 0),
    min_self]

/-- Counterexample to C6 as stated: on a 253-row frame the returned
`max_drawdown_1y` is −1/2 (the whole-series drawdown, rounded), while the
minimum of `(close − running_max)/running_max` over the trailing one-year
(252-row) window is 0, so the two disagree. -/
theorem C6_counterexample :
    (computeTechnicalIndicators dfCex).toOption.map (·.max_drawdown_1y)
        = some (-1/2) ∧
    maxDrawdownTrailing1y (dfCex.rows.map (·.close)) = 0 ∧
    (computeTechnicalIndicators dfCex).toOption.map (·.max_drawdown_1y)
        ≠ some (maxDrawdownTrailing1y (dfCex.rows.map (·.close))) := by
  have hcolsCex : requiredCols.all (fun c => dfCex.cols.contains c) = true := by decide
  have hval : (computeTechnicalIndicators dfCex).toOption.map (·.max_drawdown_1y)
      = some (-1/2) := by
    unfold computeTechnicalIndicators
    rw [if_neg (not_not_intro hcolsCex), if_neg (by rw [dfCex_length]; omega)]
    show some (pyRound (maxDrawdownFull (dfCex.rows.map (·.close))) 4) = some (-1/2)
    rw [dfCex_closes, maxDrawdownFull_dfCex]
    decide
  have htrail : maxDrawdownTrailing1y (dfCex.rows.map (·.close)) = 0 := by
    rw [dfCex_closes]
    exact maxDrawdownTrailing1y_dfCex
  refine ⟨hval, htrail, ?_⟩
  rw [hval, htrail]
  norm_num

/-- C6 amended: for every valid price frame (all required columns, at least
200 rows, positive closes) the returned `max_drawdown_1y` equals the rounded
minimum of `(close − running_max(close))/running_max(close)` over the ENTIRE
close series (not just the trailing year), and this value is always ≤ 0. -/
theorem C6_amended_max_drawdown (df : PriceDF)
    (hcols : requiredCols.all (fun c => df.cols.contains c) = true)
    (hlen : 200 ≤ df.rows.length)
    (hpos : ∀ x ∈ df.rows.map (·.close), 0 < x) :
    (computeTechnicalIndicators df).toOption.map (·.max_drawdown_1y)
        = some (pyRound (maxDrawdownFull (df.rows.map (·.close))) 4) ∧
    pyRound (maxDrawdownFull (df.rows.map (·.close))) 4 ≤ 0 := by
  have hmdd : maxDrawdownFull (df.rows.map (·.close)) ≤ 0 := by
    cases hc : df.rows.map (·.close) with
    | nil =>
      have h1 := congrArg List.length hc
      rw [List.length_map, List.length_nil] at h1
      omega
    | cons c cs => exact maxDrawdownFull_cons_nonpos c cs
  constructor
  · unfold computeTechnicalIndicators
    rw [if_neg (not_not_intro hcols), if_neg (by omega)]
    rfl
  · have h := pyRound_le (maxDrawdownFull (df.rows.map (·.close))) 0 4
      (by exact_mod_cast hmdd)
    exact_mod_cast h

/-- Witness for the amended C6: a concrete 200-row constant frame. -/
theorem C6_amended_max_drawdown_witness :
    (computeTechnicalIndicators df200).toOption.map (·.max_drawdown_1y)
        = some (pyRound (maxDrawdownFull (df200.rows.map (·.close))) 4) ∧
    pyRound (maxDrawdownFull (df200.rows.map (·.close))) 4 ≤ 0 :=
  C6_amended_max_drawdown df200 (by decide)
    (by
      have h : df200.rows.length = 200 := by
        show (List.replicate 200 (constRow 100)).length = 200
        rw [List.length_replicate]
      omega)
    (by
      intro x hx
      have hmap : df200.rows.map (·.close) = List.replicate 200 (100 : ℚ) := by
        show (List.replicate 200 (constRow 100)).map (·.close)
            = List.replicate 200 (100 : ℚ)
        rw [List.map_replicate]
        rfl
      rw [hmap] at hx
      rw [List.eq_of_mem_replicate hx]
      norm_num)

/-- C2 (code behaviour at the claimed input): on fundamentals satisfying the
precondition but with every metric value null, `compute_fundamental_metrics`
does NOT return an all-null result — it raises Python's `TypeError`, because
the YoY numerator `latest_inc.get("revenue") - prev_inc.get("revenue")`
subtracts `None` from `None` before `_safe_div` can guard. -/
theorem C2_all_null_raises_type_error :
    computeFundamentalMetrics allNullFundamentals = .error .typeError := rfl

/-- C7 amended: absent metrics are excluded from the unweighted average of
the bucketed scores (the score is the rounded mean of exactly the
contributed buckets, 50 when none contributed); with no metrics available
the result is score 50 with label "Fair Value" — not "Unknown", which only
the exception path of `get_valuation_metrics` produces. -/
theorem C7_amended_assessment :
    (∀ a b c d e f g : Option ℚ,
      (calcValuationAssessment a b c d e f g).1 =
        (if (valuationScoresList a b c d e f).isEmpty then 50
         else pyRound ((valuationScoresList a b c d e f).sum
           / (valuationScoresList a b c d e f).length) 1)) ∧
    valuationScoresList none none none none none none = [] ∧
    calcValuationAssessment none none none none none none none = (50, "Fair Value") :=
  ⟨fun _ _ _ _ _ _ _ => rfl, rfl, by decide⟩

/-- Counterexample to C7 as stated: with no metrics available the returned
label is "Fair Value" (50 lands in the ≥ 45 band), not "Unknown". -/
theorem C7_counterexample :
    (calcValuationAssessment none none none none none none none).2 = "Fair Value" ∧
    (calcValuationAssessment none none none none none none none).2 ≠ "Unknown" := by
  decide

/-- C8: CAGR round-trip — for every real r > −1,
`cagr(100, 100·(1+r)³, 3)` returns exactly r. -/
theorem C8_cagr_roundtrip (r : ℝ) (h : -1 < r) :
    cagr (some 100) (some (100 * (1 + r) ^ 3)) 3 = some r := by
  have h1 : (0 : ℝ) < 1 + r := by linarith
  have h2 : (100 : ℝ) * (1 + r) ^ 3 ≠ 0 := by positivity
  show (if (100 : ℝ) = 0 ∨ 100 * (1 + r) ^ 3 = 0 ∨ (3 : ℤ) ≤ 0 then (none : Option ℝ)
      else some ((100 * (1 + r) ^ 3 / 100) ^ ((1 : ℝ) / ((3 : ℤ) : ℝ)) - 1)) = some r
  rw [if_neg (by push_neg; exact ⟨by norm_num, h2, by norm_num⟩)]
  have h3 : (100 : ℝ) * (1 + r) ^ 3 / 100 = (1 + r) ^ 3 := by ring
  rw [h3]
  have h4 : ((1 : ℝ) / ((3 : ℤ) : ℝ)) = (((3 : ℕ) : ℝ))⁻¹ := by norm_num
  rw [h4, ← Real.rpow_natCast (1 + r) 3, ← Real.rpow_mul (le_of_lt h1)]
  rw [show ((3 : ℕ) : ℝ) * (((3 : ℕ) : ℝ))⁻¹ = 1 by norm_num]
  rw [Real.rpow_one]
  congr 1
  ring

/-- Witness for C8 at r = 0. -/
theorem C8_cagr_roundtrip_witness :
    cagr (some 100) (some (100 * (1 + (0 : ℝ)) ^ 3)) 3 = some 0 :=
  C8_cagr_roundtrip 0 (by norm_num)

/-- Counterexample to C9 as stated: the empty string is a sector name
outside the benchmark enumeration, yet `get_sector_benchmarks` raises
(`if not sector`) instead of falling back to the default sector. -/
theorem C9_counterexample :
    getSectorBenchmarks "AAPL" (some "") = .error .sectorBenchmarkError ∧
    (SECTOR_BENCHMARKS.lookup "").isNone = true :=
  ⟨rfl, rfl⟩

/-- C9 amended: every NON-EMPTY sector string outside the benchmark
enumeration falls back to the default sector "Technology" and yields its
benchmark record without an error; the empty string (and `None`) instead
raise `SectorBenchmarkError`. -/
theorem C9_amended_fallback (t s : String) (hne : s ≠ "")
    (hmiss : SECTOR_BENCHMARKS.lookup s = none) :
    getSectorBenchmarks t (some s) =
      .ok ⟨"Technology", ⟨32.0, 27.0, 1.9, 7.5⟩, ⟨0.58, 0.26, 0.21⟩, "static_v1"⟩ := by
  have hdef : getSectorBenchmarks t (some s) =
      (if s = "" then .error .sectorBenchmarkError
       else
         let s2 := if (SECTOR_BENCHMARKS.lookup s).isSome then s else "Technology"
         let entry := (SECTOR_BENCHMARKS.lookup s2).getD
           ⟨⟨32.0, 27.0, 1.9, 7.5⟩, ⟨0.58, 0.26, 0.21⟩⟩
         .ok ⟨s2, entry.valuation, entry.profitability, "static_v1"⟩) := rfl
  rw [hdef, if_neg hne, hmiss]
  rfl

/-- Witness for the amended C9 at the unknown sector "Banana". -/
theorem C9_amended_fallback_witness :
    getSectorBenchmarks "AAPL" (some "Banana") =
      .ok ⟨"Technology", ⟨32.0, 27.0, 1.9, 7.5⟩, ⟨0.58, 0.26, 0.21⟩, "static_v1"⟩ :=
  C9_amended_fallback "AAPL" "Banana" (by decide) (by decide)

end FinResearch
